import Mathlib

/-!
Shallow embedding of `dash_charts` (files `helpers.py` and `utils_app.py`)
and proofs about its chart-state wrapper, custom-chart layout builder, and
application composition lifecycle.

Python keyword-argument mappings and `dict`s are modelled as insertion-ordered
association lists.  Python exceptions are modelled by an error type returned
through `Except`.
-/

/-- The Python exceptions raised by this code base. -/
inductive PyError where
  | notImplementedError : PyError
  | runtimeError : PyError
  | typeError : PyError
deriving DecidableEq, Repr

/-- Python `dict` lookup (`d[k]` / `d.get(k)`), on an association list. -/
def lookupKey {V : Type} : List (String × V) → String → Option V
  | [], _ => none
  | (k, v) :: rest, key => if k = key then some v else lookupKey rest key

/-- Python `dict` assignment `d[key] = v`: replace in place when the key is
present (keeping its position), otherwise append, as insertion-ordered
Python dicts do. -/
def setKey {V : Type} : List (String × V) → String → V → List (String × V)
  | [], key, v => [(key, v)]
  | (k, w) :: rest, key, v =>
      if k = key then (key, v) :: rest else (k, w) :: setKey rest key v

/-- `ChartState.__init__` from `helpers.py`: stores the chart-building
callback `chartFunc` and the default keyword arguments `kwargsDef`. -/
structure ChartState (V : Type) (A : Type) where
  chartFunc : List (String × V) → A
  kwargsDef : List (String × V)

/-- Semantics of the Python call `f(**kwargsNew, **kwargsDef)`: the keyword
mapping is built left to right and a key occurring in both expansions raises
`TypeError` (multiple values for the same keyword argument). -/
def mergeCallKwargs {V : Type} (kwargsNew kwargsDef : List (String × V)) :
    Except PyError (List (String × V)) :=
  if kwargsDef.any (fun p => kwargsNew.any (fun q => q.1 = p.1)) then
    Except.error PyError.typeError
  else
    Except.ok (kwargsNew ++ kwargsDef)

/-- `ChartState.figure` from `helpers.py`:
`return self.chartFunc(**kwargsNew, **self.kwargsDef)`. -/
def ChartState.figure {V A : Type} (cs : ChartState V A)
    (kwargsNew : List (String × V)) : Except PyError A :=
  match mergeCallKwargs kwargsNew cs.kwargsDef with
  | Except.error e => Except.error e
  | Except.ok kws => Except.ok (cs.chartFunc kws)

/-- Instance data of `CustomChart.__init__` from `helpers.py`: the title, the
axis labels (`self.labels = {'x': xLbl, 'y': yLbl}`, modelled as a pair), and
the optional per-axis ranges (`self.range`, a dict keyed by `'x'` / `'y'`,
modelled as two `Option` fields). -/
structure CustomChart where
  title : String
  labels : String × String
  rangeX : Option (Int × Int)
  rangeY : Option (Int × Int)
deriving DecidableEq, Repr

/-- One axis dictionary of the layout built by `CustomChart.createLayout`.
Keys that may be absent from the Python dict are `Option`-valued. -/
structure AxisLayout where
  automargin : Bool
  showgrid : Bool
  title : String
  zeroline : Option Bool
  range : Option (Int × Int)
  autorange : Option Bool
deriving DecidableEq, Repr

/-- The layout dictionary built by `CustomChart.createLayout`. -/
structure Layout where
  title : String
  xaxis : AxisLayout
  yaxis : AxisLayout
  legend_orientation : String
  hovermode : String
deriving DecidableEq, Repr

/-- The per-axis body of the loop `for axis in ['x', 'y']` in
`CustomChart.createLayout`: when a range is stored for the axis, set the
`range` key; otherwise set `autorange = True`. -/
def applyAxisRange (a : AxisLayout) (r : Option (Int × Int)) : AxisLayout :=
  match r with
  | some rng => { a with range := some rng }
  | none => { a with autorange := some true }

/-- `CustomChart.createLayout` from `helpers.py`. -/
def createLayout (c : CustomChart) : Layout :=
  let xaxis0 : AxisLayout :=
    { automargin := true, showgrid := true, title := c.labels.1,
      zeroline := none, range := none, autorange := none }
  let yaxis0 : AxisLayout :=
    { automargin := true, showgrid := true, title := c.labels.2,
      zeroline := some true, range := none, autorange := none }
  { title := c.title
    xaxis := applyAxisRange xaxis0 c.rangeX
    yaxis := applyAxisRange yaxis0 c.rangeY
    legend_orientation := "h"
    hovermode := "closest" }

/-- The figure dictionary returned by `CustomChart.createFigure`: a `data`
key and a `layout` key. -/
structure Figure (B : Type) where
  data : B
  layout : Layout

/-- The base-class `CustomChart.formatData` from `helpers.py`:
`raise NotImplementedError(...)`, for any data table and keyword arguments. -/
def CustomChart.formatData {D B V : Type} (_df : D)
    (_kwargsData : List (String × V)) : Except PyError B :=
  Except.error PyError.notImplementedError

/-- `CustomChart.createFigure` from `helpers.py`, parameterised over the
(possibly overridden) `formatData` method: build the `data` section with it
and pair the result with `createLayout`; an exception it raises propagates. -/
def createFigure {D B V : Type} (c : CustomChart)
    (formatData : D → List (String × V) → Except PyError B)
    (df : D) (kwargsData : List (String × V)) : Except PyError (Figure B) :=
  match formatData df kwargsData with
  | Except.error e => Except.error e
  | Except.ok d => Except.ok { data := d, layout := createLayout c }

/-- The globally unique id built by `AppBase.register_uniq_ids` in
`utils_app.py`: `f'{self.name}-{app_id}'.replace(' ', '-')` (every space in
the combined string becomes a hyphen). -/
def uniqId (name app_id : String) : String :=
  String.mk (List.map (fun ch => if ch = ' ' then '-' else ch)
    (String.data (name ++ "-" ++ app_id)))

/-- The registration loop of `AppBase.register_uniq_ids`: for each `app_id`,
`self.ids[app_id] = f'{self.name}-{app_id}'.replace(' ', '-')`. -/
def register_uniq_ids (name : String) (reg : List (String × String))
    (app_ids : List String) : List (String × String) :=
  app_ids.foldl (fun d app_id => setKey d app_id (uniqId name app_id)) reg

/-- Data of an `AppBase` subclass (`utils_app.py`): `name` (the class
attribute, `None` when unset), `ids0` (the inherited initial `ids` dict,
`{}` in the base class), `init_ids` (the ids that the subclass hook
`initialization()` registers), and `modules` (each module represented by its
`all_ids` list, in module-list order). -/
structure AppSpec where
  name : Option String
  ids0 : List (String × String)
  init_ids : List String
  modules : List (List String)

/-- An observable step of `AppBase.create`: each constructor records one call
made by `create`, module events carrying the module's `all_ids` list and, for
chart/callback creation, the `self.ids` dict passed to the module. -/
inductive Event where
  | selfInit : Event
  | moduleIdMerge : List String → Event
  | overrideModuleDefaults : Event
  | createCharts : Event
  | moduleCreateCharts : List String → List (String × String) → Event
  | assignLayout : Event
  | createCallbacks : Event
  | moduleCreateCallbacks : List String → List (String × String) → Event
  | verifyAppInit : Event
deriving DecidableEq, Repr

/-- `AppBase.create` from `utils_app.py`, step by step.  Returns the trace of
calls it performed together with either the final `self.ids` dict or the
exception raised.  `if self.name is None` raises `NotImplementedError` before
anything else; `verify_app_initialization` runs last and raises
`RuntimeError` when `self.ids` is empty. -/
def create (app : AppSpec) (assign_layout : Bool) :
    List Event × Except PyError (List (String × String)) :=
  match app.name with
  | none => ([], Except.error PyError.notImplementedError)
  | some name =>
    let st1 : List Event × List (String × String) :=
      ([Event.selfInit], register_uniq_ids name app.ids0 app.init_ids)
    let st2 := app.modules.foldl
      (fun st m => (st.1 ++ [Event.moduleIdMerge m], register_uniq_ids name st.2 m)) st1
    let st3 := (st2.1 ++ [Event.overrideModuleDefaults], st2.2)
    let st4 := (st3.1 ++ [Event.createCharts], st3.2)
    let st5 := app.modules.foldl
      (fun st m => (st.1 ++ [Event.moduleCreateCharts m st.2], st.2)) st4
    let st6 := if assign_layout then (st5.1 ++ [Event.assignLayout], st5.2) else st5
    let st7 := (st6.1 ++ [Event.createCallbacks], st6.2)
    let st8 := app.modules.foldl
      (fun st m => (st.1 ++ [Event.moduleCreateCallbacks m st.2], st.2)) st7
    (st8.1 ++ [Event.verifyAppInit],
     if st8.2 = [] then Except.error PyError.runtimeError else Except.ok st8.2)

/-- The `self.ids` dict after the id-registration phases of `create`: the
subclass's own registrations followed by each module's merge, in order. -/
def mergedIds (name : String) (app : AppSpec) : List (String × String) :=
  app.modules.foldl (fun d m => register_uniq_ids name d m)
    (register_uniq_ids name app.ids0 app.init_ids)

/-!
Heap model for the aliasing behaviour of `AppBase.register_uniq_ids`.
Python dicts are heap objects; the class attribute `ids = {}` is one shared
cell, and `self.ids = copy.deepcopy(self.ids)` rebinds the instance attribute
to a freshly allocated copy before the loop mutates it.  A heap is a list of
dict cells addressed by position.
-/

/-- Read the dict stored at address `i` of the heap. -/
def readCell : List (List (String × String)) → Nat → List (String × String)
  | [], _ => []
  | c :: _, 0 => c
  | _ :: rest, n + 1 => readCell rest n

/-- Overwrite the dict stored at address `i` of the heap. -/
def writeCell : List (List (String × String)) → Nat → List (String × String) →
    List (List (String × String))
  | [], _, _ => []
  | _ :: rest, 0, v => v :: rest
  | c :: rest, n + 1, v => c :: writeCell rest n v

/-- `AppBase.register_uniq_ids` on the heap model: `self.ids` currently
resolves to the cell at `self_ids_addr` (the shared class cell for a fresh
instance); `copy.deepcopy` allocates a fresh cell holding a copy, the
instance attribute is rebound to it, and each loop iteration mutates that
fresh cell.  Returns the new heap and the instance's new `ids` address. -/
def register_uniq_ids_heap (name : String)
    (heap : List (List (String × String))) (self_ids_addr : Nat)
    (app_ids : List String) : List (List (String × String)) × Nat :=
  let cur := readCell heap self_ids_addr
  let addr := heap.length
  let heap1 := heap ++ [cur]
  let heap2 := app_ids.foldl
    (fun h app_id =>
      writeCell h addr (setKey (readCell h addr) app_id (uniqId name app_id)))
    heap1
  (heap2, addr)

/-!  Helper lemmas about the dict model.  -/

theorem lookupKey_setKey_self {V : Type} (d : List (String × V)) (key : String)
    (v : V) : lookupKey (setKey d key v) key = some v := by
  induction d with
  | nil => simp [setKey, lookupKey]
  | cons p rest ih =>
    obtain ⟨k, w⟩ := p
    by_cases h : k = key
    · subst h
      simp [setKey, lookupKey]
    · simp [setKey, lookupKey, h, ih]

theorem lookupKey_setKey_ne {V : Type} (d : List (String × V)) (key k : String)
    (v : V) (h : k ≠ key) : lookupKey (setKey d key v) k = lookupKey d k := by
  induction d with
  | nil => simp [setKey, lookupKey, Ne.symm h]
  | cons p rest ih =>
    obtain ⟨a, w⟩ := p
    by_cases ha : a = key
    · subst ha
      simp [setKey, lookupKey, Ne.symm h]
    · simp [setKey, lookupKey, ha, ih]

theorem lookupKey_register_not_mem (name : String)
    (reg : List (String × String)) (app_ids : List String) (k : String)
    (h : k ∉ app_ids) :
    lookupKey (register_uniq_ids name reg app_ids) k = lookupKey reg k := by
  induction app_ids generalizing reg with
  | nil => rfl
  | cons a rest ih =>
    have h1 : k ≠ a := fun hh => h (hh ▸ List.mem_cons_self a rest)
    have h2 : k ∉ rest := fun hh => h (List.mem_cons_of_mem a hh)
    simp only [register_uniq_ids, List.foldl_cons]
    rw [show List.foldl (fun d app_id => setKey d app_id (uniqId name app_id))
          (setKey reg a (uniqId name a)) rest =
        register_uniq_ids name (setKey reg a (uniqId name a)) rest from rfl,
      ih _ h2, lookupKey_setKey_ne _ _ _ _ h1]

theorem lookupKey_register_mem (name : String) (reg : List (String × String))
    (app_ids : List String) (a : String) (h : a ∈ app_ids) :
    lookupKey (register_uniq_ids name reg app_ids) a = some (uniqId name a) := by
  induction app_ids generalizing reg with
  | nil => cases h
  | cons b rest ih =>
    simp only [register_uniq_ids, List.foldl_cons]
    rw [show List.foldl (fun d app_id => setKey d app_id (uniqId name app_id))
          (setKey reg b (uniqId name b)) rest =
        register_uniq_ids name (setKey reg b (uniqId name b)) rest from rfl]
    by_cases hm : a ∈ rest
    · exact ih _ hm
    · have hab : a = b := by
        rcases List.mem_cons.mp h with h1 | h2
        · exact h1
        · exact absurd h2 hm
      subst hab
      rw [lookupKey_register_not_mem _ _ _ _ hm, lookupKey_setKey_self]

/-- Claim C1: the spec says a caller-supplied keyword sharing a key with the
stored defaults overrides the default.  The code calls
`self.chartFunc(**kwargsNew, **self.kwargsDef)`, which raises `TypeError` on
any shared key instead of invoking the builder, as this evaluation of
`ChartState.figure` at defaults `x = 1` with override `x = 2` shows. -/
theorem figure_shared_key_raises_typeError :
    ChartState.figure ⟨fun kw => lookupKey kw "x", [("x", (1 : Nat))]⟩ [("x", 2)] =
      Except.error PyError.typeError := by rfl

/-- Claim C5: calling `ChartState.figure` with no caller-supplied keyword
arguments returns exactly the builder applied to the stored defaults. -/
theorem figure_no_overrides {V A : Type} (cs : ChartState V A) :
    cs.figure [] = Except.ok (cs.chartFunc cs.kwargsDef) := by
  simp [ChartState.figure, mergeCallKwargs]

/-- Claim C2: `register_uniq_ids` maps each registered element id to the
application name, a hyphen, and the element id, with every space replaced by
a hyphen (`uniqId`); in particular registering `["a", "b"]` under the name
`"My App"` yields exactly `[("a", "My-App-a"), ("b", "My-App-b")]`. -/
theorem register_uniq_ids_spec :
    (∀ (name : String) (reg : List (String × String)) (app_ids : List String)
        (a : String), a ∈ app_ids →
        lookupKey (register_uniq_ids name reg app_ids) a = some (uniqId name a)) ∧
    register_uniq_ids "My App" [] (["a", "b"]) =
      [("a", "My-App-a"), ("b", "My-App-b")] := by
  refine ⟨?_, by decide⟩
  intro name reg app_ids a h
  exact lookupKey_register_mem name reg app_ids a h

/-- Witness for C2 at name `"My App"`, ids `["a", "b"]`, element `"a"`. -/
theorem register_uniq_ids_spec_witness :
    lookupKey (register_uniq_ids "My App" [] (["a", "b"])) "a" =
      some (uniqId "My App" "a") :=
  register_uniq_ids_spec.1 "My App" [] (["a", "b"]) "a"
    (List.mem_cons_self "a" ["b"])

/-- Claim C10: `register_uniq_ids` only touches the entries whose logical
names are in the given id list; any key not in that list looks up to exactly
what it looked up to before. -/
theorem register_uniq_ids_frame (name : String) (reg : List (String × String))
    (app_ids : List String) (k : String) (h : k ∉ app_ids) :
    lookupKey (register_uniq_ids name reg app_ids) k = lookupKey reg k :=
  lookupKey_register_not_mem name reg app_ids k h

/-- Witness for C10: a pre-existing entry `"z"` survives registering `["a"]`. -/
theorem register_uniq_ids_frame_witness :
    lookupKey (register_uniq_ids "App" [("z", "old")] (["a"])) "z" =
      lookupKey [("z", "old")] "z" :=
  register_uniq_ids_frame "App" [("z", "old")] (["a"]) "z" (by decide)

/-- Claim C8: with the base-class `formatData` (not overridden),
`createFigure` returns the `NotImplementedError` signal unchanged, for every
chart, data table and keyword arguments. -/
theorem createFigure_default_formatData {D B V : Type} (c : CustomChart)
    (df : D) (kwargsData : List (String × V)) :
    createFigure c (fun d k => (CustomChart.formatData d k : Except PyError B))
      df kwargsData = Except.error PyError.notImplementedError := rfl

/-- Claim C9: `createLayout` carries the stored title and axis labels, a
horizontal legend, hovermode `"closest"`, and, independently per axis, the
stored fixed range when one is set and otherwise `autorange = True`. -/
theorem createLayout_fields (c : CustomChart) :
    (createLayout c).title = c.title ∧
    (createLayout c).xaxis.title = c.labels.1 ∧
    (createLayout c).yaxis.title = c.labels.2 ∧
    (createLayout c).legend_orientation = "h" ∧
    (createLayout c).hovermode = "closest" ∧
    (createLayout c).xaxis.range = c.rangeX ∧
    (createLayout c).xaxis.autorange = (if c.rangeX = none then some true else none) ∧
    (createLayout c).yaxis.range = c.rangeY ∧
    (createLayout c).yaxis.autorange = (if c.rangeY = none then some true else none) := by
  obtain ⟨t, ⟨lx, ly⟩, rx, ry⟩ := c
  cases rx <;> cases ry <;> simp [createLayout, applyAxisRange]

/-!  Helper lemmas about the traces of `create`.  -/

theorem foldl_merge_trace (name : String) (l : List (List String))
    (tr : List Event) (d : List (String × String)) :
    List.foldl
        (fun st m => (st.1 ++ [Event.moduleIdMerge m], register_uniq_ids name st.2 m))
        (tr, d) l =
      (tr ++ l.map Event.moduleIdMerge,
       List.foldl (fun d m => register_uniq_ids name d m) d l) := by
  induction l generalizing tr d with
  | nil => simp
  | cons m rest ih => simp [List.foldl_cons, ih, List.append_assoc]

theorem foldl_event_trace (g : List String → List (String × String) → Event)
    (l : List (List String)) (tr : List Event) (d : List (String × String)) :
    List.foldl (fun st m => (st.1 ++ [g m st.2], st.2)) (tr, d) l =
      (tr ++ l.map (fun m => g m d), d) := by
  induction l generalizing tr with
  | nil => simp
  | cons m rest ih => simp [List.foldl_cons, ih, List.append_assoc]

/-- Claim C3 (amended): when the application name is unset (`None`),
`create` raises the missing-name `NotImplementedError` with an empty trace,
i.e. before any other phase runs. -/
theorem create_none_name_raises (app : AppSpec) (b : Bool)
    (h : app.name = none) :
    create app b = ([], Except.error PyError.notImplementedError) := by
  obtain ⟨nm, ids0, init_ids, mods⟩ := app
  subst h
  rfl

/-- Witness for the amended C3 at a concrete nameless app. -/
theorem create_none_name_raises_witness :
    create ⟨none, [], ["a"], []⟩ true =
      ([], Except.error PyError.notImplementedError) :=
  create_none_name_raises ⟨none, [], ["a"], []⟩ true rfl

/-- Counterexample to claim C3 as stated: an application whose name is the
empty string (empty, but set) does not raise the missing-name error; every
startup phase runs and `create` returns normally. -/
theorem create_empty_name_no_missing_name_error :
    create ⟨some "", [], ["a"], []⟩ true =
      ([Event.selfInit, Event.overrideModuleDefaults, Event.createCharts,
        Event.assignLayout, Event.createCallbacks, Event.verifyAppInit],
       Except.ok [("a", "-a")]) := by rfl

/-- Claim C7: with a name set, `create` performs exactly, in order: own
initialization, each module's id merge in list order, the module-defaults
override hook, own chart creation, each module's chart creation in list
order with the merged registry, the optional layout assignment, own callback
registration, and each module's callback registration in list order with the
merged registry (then the final verification). -/
theorem create_phase_order (app : AppSpec) (name : String) (b : Bool)
    (h : app.name = some name) :
    (create app b).1 =
      [Event.selfInit] ++ app.modules.map Event.moduleIdMerge ++
      [Event.overrideModuleDefaults, Event.createCharts] ++
      app.modules.map (fun m => Event.moduleCreateCharts m (mergedIds name app)) ++
      (if b then [Event.assignLayout] else []) ++
      [Event.createCallbacks] ++
      app.modules.map (fun m => Event.moduleCreateCallbacks m (mergedIds name app)) ++
      [Event.verifyAppInit] := by
  obtain ⟨nm, ids0, init_ids, mods⟩ := app
  subst h
  cases b <;>
    simp [create, mergedIds, foldl_merge_trace, foldl_event_trace,
      List.append_assoc]

/-- Witness for C7 at a one-module app. -/
theorem create_phase_order_witness :
    (create ⟨some "app", [], ["a"], [["m"]]⟩ true).1 =
      [Event.selfInit] ++ [["m"]].map Event.moduleIdMerge ++
      [Event.overrideModuleDefaults, Event.createCharts] ++
      [["m"]].map (fun m =>
        Event.moduleCreateCharts m
          (mergedIds "app" ⟨some "app", [], ["a"], [["m"]]⟩)) ++
      (if true then [Event.assignLayout] else []) ++
      [Event.createCallbacks] ++
      [["m"]].map (fun m =>
        Event.moduleCreateCallbacks m
          (mergedIds "app" ⟨some "app", [], ["a"], [["m"]]⟩)) ++
      [Event.verifyAppInit] :=
  create_phase_order ⟨some "app", [], ["a"], [["m"]]⟩ "app" true rfl

/-- Claim C4: an app with a name that never registers any element identifier
(nothing registered in initialization, no modules) makes `create` raise the
no-identifiers `RuntimeError`, and the verification step is the final phase,
after chart creation, the optional layout assignment, and callback
registration. -/
theorem create_no_ids_raises_last (n : String) (b : Bool) (app : AppSpec)
    (h1 : app.name = some n) (h2 : app.ids0 = []) (h3 : app.init_ids = [])
    (h4 : app.modules = []) :
    create app b =
      ([Event.selfInit, Event.overrideModuleDefaults, Event.createCharts] ++
       (if b then [Event.assignLayout] else []) ++
       [Event.createCallbacks, Event.verifyAppInit],
       Except.error PyError.runtimeError) := by
  obtain ⟨nm, ids0, init_ids, mods⟩ := app
  subst h1
  subst h2
  subst h3
  subst h4
  cases b <;> rfl

/-- Witness for C4 at a concrete app that registers nothing. -/
theorem create_no_ids_raises_last_witness :
    create ⟨some "app", [], [], []⟩ true =
      ([Event.selfInit, Event.overrideModuleDefaults, Event.createCharts] ++
       (if true then [Event.assignLayout] else []) ++
       [Event.createCallbacks, Event.verifyAppInit],
       Except.error PyError.runtimeError) :=
  create_no_ids_raises_last "app" true ⟨some "app", [], [], []⟩ rfl rfl rfl rfl

/-!  Helper lemmas about the heap model.  -/

theorem readCell_writeCell_ne (h : List (List (String × String))) (i j : Nat)
    (v : List (String × String)) (hij : i ≠ j) :
    readCell (writeCell h i v) j = readCell h j := by
  induction h generalizing i j with
  | nil => rfl
  | cons c rest ih =>
    cases i with
    | zero =>
      cases j with
      | zero => exact absurd rfl hij
      | succ j => rfl
    | succ i =>
      cases j with
      | zero => rfl
      | succ j => exact ih i j (fun hh => hij (by rw [hh]))

theorem readCell_append_lt (h : List (List (String × String)))
    (c : List (String × String)) (j : Nat) (hj : j < h.length) :
    readCell (h ++ [c]) j = readCell h j := by
  induction h generalizing j with
  | nil => cases hj
  | cons a rest ih =>
    cases j with
    | zero => rfl
    | succ j => exact ih j (Nat.lt_of_succ_lt_succ hj)

theorem foldl_writeCell_readCell (name : String) (l : List String)
    (addr j : Nat) (hij : j ≠ addr) :
    ∀ h : List (List (String × String)),
      readCell
        (List.foldl
          (fun h app_id =>
            writeCell h addr (setKey (readCell h addr) app_id (uniqId name app_id)))
          h l) j = readCell h j := by
  induction l with
  | nil => intro h; rfl
  | cons a rest ih =>
    intro h
    rw [List.foldl_cons, ih, readCell_writeCell_ne _ _ _ _ (fun hh => hij hh.symm)]

/-- Claim C6: registering identifiers through one sibling instance (which
deep-copies the shared registry into a fresh heap cell before mutating it)
leaves the class cell — the registry still seen by any other sibling
instance — exactly as it was. -/
theorem register_heap_sibling_isolated (name : String)
    (heap : List (List (String × String))) (clsAddr : Nat)
    (app_ids : List String) (h : clsAddr < heap.length) :
    readCell (register_uniq_ids_heap name heap clsAddr app_ids).1 clsAddr =
      readCell heap clsAddr := by
  unfold register_uniq_ids_heap
  rw [foldl_writeCell_readCell name app_ids heap.length clsAddr (Nat.ne_of_lt h)]
  exact readCell_append_lt heap _ clsAddr h

/-- Witness for C6: one shared class cell, one sibling registers `["a"]`. -/
theorem register_heap_sibling_isolated_witness :
    readCell (register_uniq_ids_heap "A" [[("p", "q")]] 0 (["a"])).1 0 =
      readCell [[("p", "q")]] 0 :=
  register_heap_sibling_isolated "A" [[("p", "q")]] 0 (["a"]) (by decide)
